import Mathlib

/-!
Verification development for the `autocorrectingframegenerator` repository:
nine Playwright browser-automation scripts under `src/verification/`.

Shallow embedding. Each script is modelled by
 * a success-path operation trace (`List Op`), a function of a `PageData`
   record collecting every value the script reads back from the page, and
 * the exception-handling shape of its `__main__` block, a function
   `Except String Unit → RunResult` where the argument is the outcome of the
   verification body (exceptions are modelled by their message string; every
   exception the bodies can raise — Playwright errors, `AssertionError` — is
   a subclass of Python's `Exception`) and the handler's own `print`,
   `screenshot` and `browser.close()` calls are modelled as succeeding.
-/

/-- A single Python apostrophe character (codepoint 39). -/
def aposChar : Char := Char.ofNat 39

/-- A double-quote character (codepoint 34). -/
def quoteChar : Char := Char.ofNat 34

/-- The one-character string consisting of an apostrophe. -/
def apos : String := String.singleton aposChar

/-- Browser-automation operations issued by the scripts, one constructor per
kind of Playwright (or OS) call that appears in the source. -/
inductive Op where
  | launch : Op
  | newContext : Op
  | newPage : Op
  | goto : String → Op
  | reload : Op
  | waitForSelector : String → Op
  | waitForLoadState : String → Op
  | evaluateJs : String → Op
  | route : String → Op
  | click : String → Op
  | fill : String → String → Op
  | assert : String → Op
  | getAttr : String → String → Op
  | countLocator : String → Op
  | getContent : Op
  | screenshot : String → Op
  | sleep : Nat → Op
  | makedirs : String → Op
  | printMsg : String → Op
  | closeBrowser : Op
deriving DecidableEq, Repr

/-- Everything any of the nine scripts reads back from the page: the
history-image `loading`/`decoding` attribute pairs (verify_lazy.py), the four
`aria-pressed` read-backs (verify_buttons.py), and the page HTML content
(verify_spinner.py). `none` models a missing attribute (Python `None`). -/
structure PageData where
  historyImages : List (Option String × Option String)
  simplePressed : Option String
  proPressed : Option String
  simplePressedAfter : Option String
  proPressedAfter : Option String
  pageContent : String
deriving DecidableEq

/-- How a Python f-string renders an optional attribute value: `None` for a
missing attribute, the string itself otherwise. -/
def pyOptStr : Option String → String
  | none => "None"
  | some s => s

/-- Substring test, Python's `in` operator on strings (computed on the
underlying character lists). -/
def strContains (s pat : String) : Bool :=
  (List.range (s.data.length + 1)).any fun i =>
    List.isPrefixOf pat.data (s.data.drop i)

/-- The JavaScript string passed to `page.evaluate` in verify_buttons.py
line 16 (apostrophes written via `apos`). -/
def seedJsButtons : String :=
  "localStorage.setItem(" ++ apos ++ "geminiApiKey" ++ apos ++ ", "
    ++ apos ++ "dummy-key" ++ apos ++ ")"

/-- The JavaScript string passed to `page.evaluate` in verify_changes.py
line 15. -/
def seedJsChanges : String :=
  "localStorage.setItem(" ++ apos ++ "geminiApiKey" ++ apos ++ ", "
    ++ apos ++ "dummy_key" ++ apos ++ ")"

/-- The selector waited for in verify_lazy.py line 15. -/
def lazyImgSelector : String :=
  "img[alt^=" ++ apos ++ "Iteration" ++ apos ++ "]"

/-- Success-path trace of verify_accordion.py: `__main__` launches a browser
and page, `verify_accordion(page)` navigates, asserts, clicks, screenshots,
and `finally` closes the browser. -/
def verify_accordion_trace (_pd : PageData) : List Op :=
  [Op.launch, Op.newPage,
   Op.goto "http://localhost:5173",
   Op.assert "toggle_btn aria-expanded false",
   Op.assert "content not visible",
   Op.click "button Example Prompts",
   Op.assert "toggle_btn aria-expanded true",
   Op.assert "content visible",
   Op.assert "toggle_btn aria-controls example-prompts-content",
   Op.assert "region Example prompts list visible",
   Op.assert "copy button visible",
   Op.screenshot "verification/accordion_expanded.png",
   Op.printMsg "Verification successful!",
   Op.closeBrowser]

/-- Success-path trace of verify_accordion_v2.py. -/
def verify_accordion_v2_trace (_pd : PageData) : List Op :=
  [Op.launch, Op.newPage,
   Op.goto "http://localhost:5173",
   Op.waitForSelector "text=Auto-Correcting Frame Generator",
   Op.fill "Gemini API Key" "dummy_api_key",
   Op.click "button Save Key",
   Op.assert "toggle_btn visible",
   Op.assert "toggle_btn aria-expanded false",
   Op.assert "content not visible",
   Op.click "button Example Prompts",
   Op.assert "toggle_btn aria-expanded true",
   Op.assert "content visible",
   Op.assert "toggle_btn aria-controls example-prompts-content",
   Op.assert "region Example prompts list visible",
   Op.screenshot "verification/accordion_verified.png",
   Op.printMsg "Verification successful!",
   Op.closeBrowser]

/-- Success-path trace of verify_accordion_v3.py: `page.route` is called on
line 24, before `page.goto` on line 26. -/
def verify_accordion_v3_trace (_pd : PageData) : List Op :=
  [Op.launch, Op.newPage,
   Op.route "**/generativelanguage.googleapis.com/**",
   Op.goto "http://localhost:5173",
   Op.waitForSelector "text=Auto-Correcting Frame Generator",
   Op.fill "Gemini API Key" "dummy_api_key",
   Op.click "button Save Key",
   Op.assert "toggle_btn visible timeout 10000",
   Op.assert "toggle_btn aria-expanded false",
   Op.assert "content not visible",
   Op.click "button Example Prompts",
   Op.assert "toggle_btn aria-expanded true",
   Op.assert "content visible",
   Op.assert "toggle_btn aria-controls example-prompts-content",
   Op.assert "region Example prompts list visible",
   Op.screenshot "verification/accordion_verified.png",
   Op.printMsg "Verification successful!",
   Op.closeBrowser]

/-- Success-path trace of verify_app.py. -/
def verify_app_trace (_pd : PageData) : List Op :=
  [Op.launch, Op.newPage,
   Op.goto "http://localhost:5173",
   Op.waitForSelector "text=Auto-Correcting Frame Generator",
   Op.screenshot "verification/app_start.png",
   Op.printMsg "Screenshot taken at verification/app_start.png",
   Op.closeBrowser]

/-- Success-path trace of verify_buttons.py: the whole run, including launch
and `browser.close()`, is inside `verify_mode_buttons` itself; the printed
messages interpolate `aria-pressed` values read back from the page. -/
def verify_buttons_trace (pd : PageData) : List Op :=
  [Op.launch, Op.newPage,
   Op.goto "http://localhost:5173",
   Op.evaluateJs seedJsButtons,
   Op.reload,
   Op.waitForSelector "#prompt-input",
   Op.getAttr "button Simple" "aria-pressed",
   Op.printMsg ("Simple button aria-pressed: " ++ pyOptStr pd.simplePressed),
   Op.getAttr "button Pro" "aria-pressed",
   Op.printMsg ("Pro button aria-pressed: " ++ pyOptStr pd.proPressed),
   Op.screenshot "verification/mode_buttons_initial.png",
   Op.click "button Pro",
   Op.getAttr "button Simple" "aria-pressed",
   Op.printMsg ("Simple button aria-pressed after click: "
     ++ pyOptStr pd.simplePressedAfter),
   Op.getAttr "button Pro" "aria-pressed",
   Op.printMsg ("Pro button aria-pressed after click: "
     ++ pyOptStr pd.proPressedAfter),
   Op.screenshot "verification/mode_buttons_pro.png",
   Op.closeBrowser]

/-- Success-path trace of verify_changes.py (body `verify_ui` plus the
launch/close from `__main__`). -/
def verify_changes_trace (_pd : PageData) : List Op :=
  [Op.launch, Op.newPage,
   Op.goto "http://localhost:5173",
   Op.waitForLoadState "networkidle",
   Op.evaluateJs seedJsChanges,
   Op.reload,
   Op.assert "textarea#prompt-input visible",
   Op.assert "tip_text visible",
   Op.assert "kbd count 2",
   Op.assert "kbd first Ctrl",
   Op.assert "kbd last Enter",
   Op.evaluateJs "el => el.parentElement.scrollIntoView()",
   Op.sleep 500,
   Op.screenshot "verification/prompt_input_hint.png",
   Op.assert "generate_btn visible",
   Op.assert "svg.lucide-sparkles visible",
   Op.printMsg "Verification successful!",
   Op.closeBrowser]

/-- Per-image operations of the verify_lazy.py attribute loop (lines 22-31),
on the success path: two attribute reads and one print per history image,
with the running index interpolated into the message. -/
def lazyLoopOps : Nat → List (Option String × Option String) → List Op
  | _, [] => []
  | i, img :: rest =>
    Op.getAttr "history image" "loading" ::
    Op.getAttr "history image" "decoding" ::
    Op.printMsg ("Image " ++ toString i ++ ": loading=" ++ pyOptStr img.1
      ++ ", decoding=" ++ pyOptStr img.2) ::
    lazyLoopOps (i + 1) rest

/-- Fixed operations of verify_lazy.py before the attribute loop. -/
def lazyPrefixOps (pd : PageData) : List Op :=
  [Op.launch, Op.newPage,
   Op.goto "http://localhost:5173",
   Op.click "text HISTORY",
   Op.waitForSelector lazyImgSelector,
   Op.countLocator "div.space-y-2 img",
   Op.printMsg ("Found " ++ toString pd.historyImages.length
     ++ " history images")]

/-- Fixed operations of verify_lazy.py after the attribute loop. -/
def lazySuffixOps : List Op :=
  [Op.makedirs "/home/jules/verification",
   Op.screenshot "/home/jules/verification/verification.png",
   Op.printMsg "Screenshot saved to /home/jules/verification/verification.png",
   Op.closeBrowser]

/-- Success-path trace of verify_lazy.py. -/
def verify_lazy_trace (pd : PageData) : List Op :=
  lazyPrefixOps pd ++ lazyLoopOps 0 pd.historyImages ++ lazySuffixOps

/-- Success-path trace of verify_lazy_loading.py. -/
def verify_lazy_loading_trace (_pd : PageData) : List Op :=
  [Op.launch, Op.newPage,
   Op.goto "http://localhost:3000",
   Op.waitForSelector "h1",
   Op.screenshot "verification/app_loaded.png",
   Op.printMsg "App loaded successfully",
   Op.closeBrowser]

/-- Success-path trace of verify_spinner.py: the only script that creates an
explicit browser context; the final message depends on the page HTML
content read back by `page.content()`. -/
def verify_spinner_trace (pd : PageData) : List Op :=
  [Op.launch, Op.newContext, Op.newPage,
   Op.sleep 5000,
   Op.goto "http://localhost:5173",
   Op.waitForSelector "h3:has-text(\"Enter Your Gemini API Key\")",
   Op.fill "input[type=\"password\"]" "dummy-api-key",
   Op.route "**/*generativelanguage.googleapis.com*",
   Op.click "button:has-text(\"Save Key\")",
   Op.sleep 500,
   Op.screenshot "/home/jules/verification/spinner_verification.png",
   Op.getContent] ++
  (if strContains pd.pageContent "Validating..."
      && strContains pd.pageContent "animate-spin" then
    [Op.printMsg "Spinner and Validating text found!"]
   else
    [Op.printMsg "Spinner or Validating text NOT found!",
     Op.printMsg pd.pageContent]) ++
  [Op.closeBrowser]

/-- The success-path traces of all nine scripts, in file order. -/
def allTraces (pd : PageData) : List (List Op) :=
  [verify_accordion_trace pd,
   verify_accordion_v2_trace pd,
   verify_accordion_v3_trace pd,
   verify_app_trace pd,
   verify_buttons_trace pd,
   verify_changes_trace pd,
   verify_lazy_trace pd,
   verify_lazy_loading_trace pd,
   verify_spinner_trace pd]

/-- A page with no history images, no `aria-pressed` values and empty
content. -/
def pd0 : PageData := ⟨[], none, none, none, none, ""⟩

/-- Outcome of running a script's `__main__` block once the verification body
has finished with the given `Except` result: messages printed by the handler
(not by the body), whether the script's `browser.close()` call executed,
the exception (if any) escaping the script, and the browser-automation
operations the handler performed after catching a failure. -/
structure RunResult where
  printed : List String
  browserClosed : Bool
  raised : Option String
  opsAfterCatch : List Op
deriving DecidableEq

/-- Process exit status implied by a run: 0 when no exception escapes,
1 (Python's uncaught-exception status) otherwise. -/
def exitStatus (r : RunResult) : Nat :=
  match r.raised with
  | none => 0
  | some _ => 1

/-- Embedding of verify_accordion.py lines 39-48: `try` body,
`except Exception as e: print(f"Verification failed: {e}")`,
`finally: browser.close()`. -/
def verify_accordion_main : Except String Unit → RunResult
  | Except.ok _ => ⟨[], true, none, []⟩
  | Except.error e => ⟨["Verification failed: " ++ e], true, none, []⟩

/-- Embedding of verify_accordion_v2.py lines 56-65 (same handler shape as
verify_accordion.py). -/
def verify_accordion_v2_main : Except String Unit → RunResult
  | Except.ok _ => ⟨[], true, none, []⟩
  | Except.error e => ⟨["Verification failed: " ++ e], true, none, []⟩

/-- Embedding of verify_accordion_v3.py lines 64-73 (same handler shape as
verify_accordion.py). -/
def verify_accordion_v3_main : Except String Unit → RunResult
  | Except.ok _ => ⟨[], true, none, []⟩
  | Except.error e => ⟨["Verification failed: " ++ e], true, none, []⟩

/-- Embedding of verify_app.py lines 17-26: `except Exception as e:
print(f"Error: {e}")`, `finally: browser.close()`. -/
def verify_app_main : Except String Unit → RunResult
  | Except.ok _ => ⟨[], true, none, []⟩
  | Except.error e => ⟨["Error: " ++ e], true, none, []⟩

/-- Embedding of verify_changes.py lines 60-70: the `except` block prints
`Error: {e}` and then takes a screenshot to verification/error.png before
the `finally` closes the browser. -/
def verify_changes_main : Except String Unit → RunResult
  | Except.ok _ => ⟨[], true, none, []⟩
  | Except.error e =>
    ⟨["Error: " ++ e], true, none, [Op.screenshot "verification/error.png"]⟩

/-- Embedding of verify_lazy.py lines 39-46: `try ... finally:
browser.close()` with no `except` clause — the browser is closed but the
exception is re-raised and nothing is printed. -/
def verify_lazy_main : Except String Unit → RunResult
  | Except.ok _ => ⟨[], true, none, []⟩
  | Except.error e => ⟨[], true, some e, []⟩

/-- Embedding of verify_buttons.py lines 44-45: `verify_mode_buttons()` is
called with no try block; on an exception the `browser.close()` call on
line 42 is never reached and the exception escapes. -/
def verify_buttons_main : Except String Unit → RunResult
  | Except.ok _ => ⟨[], true, none, []⟩
  | Except.error e => ⟨[], false, some e, []⟩

/-- Embedding of verify_lazy_loading.py lines 28-29: no try block; on an
exception the `browser.close()` call on line 26 is never reached. -/
def verify_lazy_loading_main : Except String Unit → RunResult
  | Except.ok _ => ⟨[], true, none, []⟩
  | Except.error e => ⟨[], false, some e, []⟩

/-- Embedding of verify_spinner.py lines 66-67: no try block; on an
exception the `browser.close()` call on line 64 is never reached. -/
def verify_spinner_main : Except String Unit → RunResult
  | Except.ok _ => ⟨[], true, none, []⟩
  | Except.error e => ⟨[], false, some e, []⟩

/-- The nine `__main__` embeddings, in file order (matching `allTraces`). -/
def allMains : List (Except String Unit → RunResult) :=
  [verify_accordion_main, verify_accordion_v2_main, verify_accordion_v3_main,
   verify_app_main, verify_buttons_main, verify_changes_main,
   verify_lazy_main, verify_lazy_loading_main, verify_spinner_main]

/-- Embedding of the attribute-checking loop of verify_lazy.py lines 22-31,
starting at index `i`: for each history image (a `loading`/`decoding`
attribute pair) it raises `AssertionError` if `loading` is not the string
"lazy", then if `decoding` is not the string "async", and otherwise moves to
the next image. The error carries the Python message. -/
def checkImagesFrom : Nat → List (Option String × Option String) →
    Except String Unit
  | _, [] => Except.ok ()
  | i, img :: rest =>
    if img.1 ≠ some "lazy" then
      Except.error ("Image " ++ toString i ++ " missing loading="
        ++ apos ++ "lazy" ++ apos)
    else if img.2 ≠ some "async" then
      Except.error ("Image " ++ toString i ++ " missing decoding="
        ++ apos ++ "async" ++ apos)
    else checkImagesFrom (i + 1) rest

/-- The whole attribute-checking loop of verify_lazy.py, over the located
history images. -/
def checkHistoryImages (imgs : List (Option String × Option String)) :
    Except String Unit :=
  checkImagesFrom 0 imgs

/-- Python values appearing in the `response_body` literal of
verify_accordion_v3.py: strings, lists and string-keyed dicts. -/
inductive PyVal where
  | pstr : String → PyVal
  | plist : List PyVal → PyVal
  | pdict : List (String × PyVal) → PyVal

mutual

/-- Python's `str()` on a `PyVal`: strings in single quotes, lists in
brackets with ", " separators, dicts in braces with ", " separators and
": " after each single-quoted key. (None of the strings involved need
escaping, so quoting is plain concatenation.) -/
def pyRepr : PyVal → String
  | PyVal.pstr s => apos ++ s ++ apos
  | PyVal.plist xs => "[" ++ pyReprElems xs ++ "]"
  | PyVal.pdict kvs => "\x7b" ++ pyReprItems kvs ++ "\x7d"

/-- Comma-separated `str()` of list elements. -/
def pyReprElems : List PyVal → String
  | [] => ""
  | [x] => pyRepr x
  | x :: y :: xs => pyRepr x ++ ", " ++ pyReprElems (y :: xs)

/-- Comma-separated `str()` of dict items. -/
def pyReprItems : List (String × PyVal) → String
  | [] => ""
  | [kv] => apos ++ kv.1 ++ apos ++ ": " ++ pyRepr kv.2
  | kv :: kw :: xs =>
    apos ++ kv.1 ++ apos ++ ": " ++ pyRepr kv.2 ++ ", "
      ++ pyReprItems (kw :: xs)

end

/-- Python's `str.replace` for single-character pattern and replacement,
as used by `.replace("'", '"')` on line 21 of verify_accordion_v3.py. -/
def pyReplaceChar (s : String) (a b : Char) : String :=
  String.mk (s.data.map fun c => if c = a then b else c)

/-- The `response_body` dict literal of verify_accordion_v3.py lines 10-20. -/
def response_body : PyVal :=
  PyVal.pdict [("candidates", PyVal.plist [PyVal.pdict [("content",
    PyVal.pdict [("parts", PyVal.plist [PyVal.pdict [("text",
      PyVal.pstr "Test response")]])])]])]

/-- An intercepted network request as seen by a Playwright route handler. -/
structure RouteRequest where
  url : String
  method : String
  postData : String
deriving DecidableEq

/-- The response a route handler fulfills a request with. -/
structure RouteResponse where
  status : Nat
  body : String
deriving DecidableEq

/-- Embedding of `handle_gemini_api` (verify_accordion_v3.py lines 5-21):
every intercepted request is fulfilled with status 200 and the body
`str(response_body).replace("'", '"')`, independent of the request. -/
def handle_gemini_api (_req : RouteRequest) : RouteResponse :=
  ⟨200, pyReplaceChar (pyRepr response_body) aposChar quoteChar⟩

/-- JSON values (enough for the stubbed Gemini response). -/
inductive Json where
  | jstr : String → Json
  | jarr : List Json → Json
  | jobj : List (String × Json) → Json

mutual

/-- Standard JSON serialization with ", " and ": " separators (matching the
whitespace the Python `str`/`replace` pipeline produces). -/
def jsonSerialize : Json → String
  | Json.jstr s => "\"" ++ s ++ "\""
  | Json.jarr xs => "[" ++ jsonSerializeElems xs ++ "]"
  | Json.jobj kvs => "\x7b" ++ jsonSerializeItems kvs ++ "\x7d"

/-- Comma-separated serialization of array elements. -/
def jsonSerializeElems : List Json → String
  | [] => ""
  | [x] => jsonSerialize x
  | x :: y :: xs => jsonSerialize x ++ ", " ++ jsonSerializeElems (y :: xs)

/-- Comma-separated serialization of object members. -/
def jsonSerializeItems : List (String × Json) → String
  | [] => ""
  | [kv] => "\"" ++ kv.1 ++ "\"" ++ ": " ++ jsonSerialize kv.2
  | kv :: kw :: xs =>
    "\"" ++ kv.1 ++ "\"" ++ ": " ++ jsonSerialize kv.2 ++ ", "
      ++ jsonSerializeItems (kw :: xs)

end

/-- The JSON value the stubbed response body is claimed to denote. -/
def expectedJson : Json :=
  Json.jobj [("candidates", Json.jarr [Json.jobj [("content",
    Json.jobj [("parts", Json.jarr [Json.jobj [("text",
      Json.jstr "Test response")]])])]])]

/-- The URLs of the `page.goto` calls occurring in a trace, in order. -/
def gotoUrls (t : List Op) : List String :=
  t.filterMap fun o =>
    match o with
    | Op.goto u => some u
    | _ => none

/-- The output paths of the `page.screenshot` calls occurring in a trace,
in order. -/
def screenshotPaths (t : List Op) : List String :=
  t.filterMap fun o =>
    match o with
    | Op.screenshot p => some p
    | _ => none

/-- Number of operations in a trace satisfying a predicate. -/
def countOp (p : Op → Bool) (t : List Op) : Nat :=
  (t.filter p).length

/-- Recognizes the browser-launch operation. -/
def isLaunch : Op → Bool
  | Op.launch => true
  | _ => false

/-- Recognizes the context-creation operation. -/
def isNewContext : Op → Bool
  | Op.newContext => true
  | _ => false

/-- Recognizes the page-creation operation. -/
def isNewPage : Op → Bool
  | Op.newPage => true
  | _ => false

/-- The first operation of a trace that is a navigation, a storage-seeding
`evaluate`, or a route interception, if any. -/
def firstNavSeedOrRoute : List Op → Option Op
  | [] => none
  | Op.goto u :: _ => some (Op.goto u)
  | Op.route pat :: _ => some (Op.route pat)
  | Op.evaluateJs js :: _ => some (Op.evaluateJs js)
  | _ :: rest => firstNavSeedOrRoute rest

/-- A page with one conforming history image. -/
def pdA : PageData := ⟨[(some "lazy", some "async")], none, none, none, none, ""⟩

/-- A page on which the mode buttons report `aria-pressed` values. -/
def pdB : PageData := ⟨[], some "true", some "false", some "false", some "true", ""⟩

/-- A page whose HTML contains both "Validating..." and "animate-spin". -/
def pdC : PageData := ⟨[], none, none, none, none, "a Validating... b animate-spin c"⟩

/-- Every operation emitted by the verify_lazy.py attribute loop is an
attribute read or a print. -/
theorem mem_lazyLoopOps (imgs : List (Option String × Option String)) :
    ∀ i o, o ∈ lazyLoopOps i imgs →
      (∃ s a, o = Op.getAttr s a) ∨ ∃ m, o = Op.printMsg m := by
  induction imgs with
  | nil => intro i o h; simp [lazyLoopOps] at h
  | cons img rest ih =>
    intro i o h
    simp only [lazyLoopOps, List.mem_cons] at h
    rcases h with rfl | rfl | rfl | h
    · exact Or.inl ⟨_, _, rfl⟩
    · exact Or.inl ⟨_, _, rfl⟩
    · exact Or.inr ⟨_, rfl⟩
    · exact ih _ o h

/-- `filterMap` ignores the verify_lazy.py loop operations whenever the
function discards attribute reads and prints. -/
theorem lazyLoopOps_filterMap {α : Type} (f : Op → Option α)
    (h1 : ∀ s a, f (Op.getAttr s a) = none)
    (h2 : ∀ m, f (Op.printMsg m) = none)
    (imgs : List (Option String × Option String)) :
    ∀ i, (lazyLoopOps i imgs).filterMap f = [] := by
  induction imgs with
  | nil => intro i; simp [lazyLoopOps]
  | cons img rest ih =>
    intro i
    simp [lazyLoopOps, List.filterMap_cons, h1, h2, ih]

/-- `filter` ignores the verify_lazy.py loop operations whenever the
predicate rejects attribute reads and prints. -/
theorem lazyLoopOps_filter (p : Op → Bool)
    (h1 : ∀ s a, p (Op.getAttr s a) = false)
    (h2 : ∀ m, p (Op.printMsg m) = false)
    (imgs : List (Option String × Option String)) :
    ∀ i, (lazyLoopOps i imgs).filter p = [] := by
  induction imgs with
  | nil => intro i; simp [lazyLoopOps]
  | cons img rest ih =>
    intro i
    simp [lazyLoopOps, List.filter_cons, h1, h2, ih]

/-- Characterization of the verify_lazy.py attribute loop from any starting
index: it returns `ok` exactly when every remaining image has
`loading="lazy"` and `decoding="async"`. -/
theorem checkImagesFrom_ok_iff (imgs : List (Option String × Option String)) :
    ∀ i, checkImagesFrom i imgs = Except.ok () ↔
      ∀ img ∈ imgs, img.1 = some "lazy" ∧ img.2 = some "async" := by
  induction imgs with
  | nil => intro i; simp [checkImagesFrom]
  | cons img rest ih =>
    intro i
    by_cases h1 : img.1 = some "lazy"
    · by_cases h2 : img.2 = some "async"
      · simp [checkImagesFrom, h1, h2, ih]
      · simp [checkImagesFrom, h1, h2]
    · simp [checkImagesFrom, h1]

/-- An `Except String Unit` value is an error exactly when it is not `ok`. -/
theorem except_error_iff_ne_ok (x : Except String Unit) :
    (∃ msg, x = Except.error msg) ↔ ¬ x = Except.ok () := by
  cases x with
  | error e => simp
  | ok u => cases u; simp

/-- C1 counterexample: the claim that every script catches exceptions at top
level, prints a failure message and runs `browser.close()` is false for
verify_lazy.py, whose `try/finally` has no `except` clause: at the concrete
exception "boom" nothing is printed and the exception escapes. -/
theorem C1_counterexample :
    ¬ (∀ m ∈ allMains, ∀ e : String,
        (m (Except.error e)).printed ≠ [] ∧
        (m (Except.error e)).raised = none ∧
        (m (Except.error e)).browserClosed = true) := by
  intro h
  have hm := h verify_lazy_main (by simp [allMains]) "boom"
  simp [verify_lazy_main] at hm

/-- C1 (amended): for every exception raised by a verification body, the
five try/except scripts print a failure message, swallow the exception and
close the browser; verify_lazy.py closes the browser via `finally` but
re-raises without printing; verify_buttons.py, verify_lazy_loading.py and
verify_spinner.py have no handler, so nothing is printed and the script's
`browser.close()` call is never executed. -/
theorem C1_amended : ∀ e : String,
    verify_accordion_main (Except.error e) =
      ⟨["Verification failed: " ++ e], true, none, []⟩ ∧
    verify_accordion_v2_main (Except.error e) =
      ⟨["Verification failed: " ++ e], true, none, []⟩ ∧
    verify_accordion_v3_main (Except.error e) =
      ⟨["Verification failed: " ++ e], true, none, []⟩ ∧
    verify_app_main (Except.error e) = ⟨["Error: " ++ e], true, none, []⟩ ∧
    verify_changes_main (Except.error e) =
      ⟨["Error: " ++ e], true, none, [Op.screenshot "verification/error.png"]⟩ ∧
    verify_lazy_main (Except.error e) = ⟨[], true, some e, []⟩ ∧
    verify_buttons_main (Except.error e) = ⟨[], false, some e, []⟩ ∧
    verify_lazy_loading_main (Except.error e) = ⟨[], false, some e, []⟩ ∧
    verify_spinner_main (Except.error e) = ⟨[], false, some e, []⟩ :=
  fun _ => ⟨rfl, rfl, rfl, rfl, rfl, rfl, rfl, rfl, rfl⟩

/-- C2 counterexample: the operation/message sequences are not independent
of page content — verify_lazy.py's trace against a page with one history
image differs from its trace against a page with none. -/
theorem C2_counterexample :
    ¬ (∀ pd pd' : PageData, allTraces pd = allTraces pd') := by
  intro h
  have h7 : verify_lazy_trace pdA = verify_lazy_trace pd0 := by
    have h9 := congrArg (fun l => l.get? 6) (h pdA pd0)
    simpa [allTraces] using h9
  exact absurd h7 (by decide)

/-- C2 (amended): six of the nine scripts perform a fixed operation and
message sequence independent of the page, but verify_lazy.py's per-image
loop, verify_buttons.py's printed attribute values and verify_spinner.py's
final message depend on values read back from the page. -/
theorem C2_amended : ∀ pd pd' : PageData,
    verify_accordion_trace pd = verify_accordion_trace pd' ∧
    verify_accordion_v2_trace pd = verify_accordion_v2_trace pd' ∧
    verify_accordion_v3_trace pd = verify_accordion_v3_trace pd' ∧
    verify_app_trace pd = verify_app_trace pd' ∧
    verify_changes_trace pd = verify_changes_trace pd' ∧
    verify_lazy_loading_trace pd = verify_lazy_loading_trace pd' ∧
    verify_lazy_trace pdA ≠ verify_lazy_trace pd0 ∧
    verify_buttons_trace pdB ≠ verify_buttons_trace pd0 ∧
    verify_spinner_trace pdC ≠ verify_spinner_trace pd0 :=
  fun _ _ => ⟨rfl, rfl, rfl, rfl, rfl, rfl, by decide, by decide, by decide⟩

/-- C3 counterexample: it is not the case that in every script the first
operation among navigation, storage seeding and route interception is the
navigation — in verify_accordion_v3.py the route interception is installed
before `page.goto`. -/
theorem C3_counterexample :
    ¬ (∀ pd : PageData, ∀ t ∈ allTraces pd,
        ∃ u, firstNavSeedOrRoute t = some (Op.goto u)) := by
  intro h
  obtain ⟨u, hu⟩ := h pd0 (verify_accordion_v3_trace pd0) (by simp [allTraces])
  have hv : firstNavSeedOrRoute (verify_accordion_v3_trace pd0) =
      some (Op.route "**/generativelanguage.googleapis.com/**") := rfl
  rw [hv] at hu
  simp at hu

/-- C3 (amended): every script launches the browser first and closes it
last, and in every script storage seeding and route interception follow the
initial navigation — except verify_accordion_v3.py, where the route
interception is installed before `page.goto`. -/
theorem C3_amended : ∀ pd : PageData,
    (firstNavSeedOrRoute (verify_accordion_trace pd) =
        some (Op.goto "http://localhost:5173") ∧
      (verify_accordion_trace pd).head? = some Op.launch ∧
      (verify_accordion_trace pd).getLast? = some Op.closeBrowser) ∧
    (firstNavSeedOrRoute (verify_accordion_v2_trace pd) =
        some (Op.goto "http://localhost:5173") ∧
      (verify_accordion_v2_trace pd).head? = some Op.launch ∧
      (verify_accordion_v2_trace pd).getLast? = some Op.closeBrowser) ∧
    (firstNavSeedOrRoute (verify_accordion_v3_trace pd) =
        some (Op.route "**/generativelanguage.googleapis.com/**") ∧
      (verify_accordion_v3_trace pd).head? = some Op.launch ∧
      (verify_accordion_v3_trace pd).getLast? = some Op.closeBrowser) ∧
    (firstNavSeedOrRoute (verify_app_trace pd) =
        some (Op.goto "http://localhost:5173") ∧
      (verify_app_trace pd).head? = some Op.launch ∧
      (verify_app_trace pd).getLast? = some Op.closeBrowser) ∧
    (firstNavSeedOrRoute (verify_buttons_trace pd) =
        some (Op.goto "http://localhost:5173") ∧
      (verify_buttons_trace pd).head? = some Op.launch ∧
      (verify_buttons_trace pd).getLast? = some Op.closeBrowser) ∧
    (firstNavSeedOrRoute (verify_changes_trace pd) =
        some (Op.goto "http://localhost:5173") ∧
      (verify_changes_trace pd).head? = some Op.launch ∧
      (verify_changes_trace pd).getLast? = some Op.closeBrowser) ∧
    (firstNavSeedOrRoute (verify_lazy_trace pd) =
        some (Op.goto "http://localhost:5173") ∧
      (verify_lazy_trace pd).head? = some Op.launch ∧
      (verify_lazy_trace pd).getLast? = some Op.closeBrowser) ∧
    (firstNavSeedOrRoute (verify_lazy_loading_trace pd) =
        some (Op.goto "http://localhost:3000") ∧
      (verify_lazy_loading_trace pd).head? = some Op.launch ∧
      (verify_lazy_loading_trace pd).getLast? = some Op.closeBrowser) ∧
    (firstNavSeedOrRoute (verify_spinner_trace pd) =
        some (Op.goto "http://localhost:5173") ∧
      (verify_spinner_trace pd).head? = some Op.launch ∧
      (verify_spinner_trace pd).getLast? = some Op.closeBrowser) := by
  intro pd
  refine ⟨⟨rfl, rfl, rfl⟩, ⟨rfl, rfl, rfl⟩, ⟨rfl, rfl, rfl⟩, ⟨rfl, rfl, rfl⟩,
    ⟨rfl, rfl, rfl⟩, ⟨rfl, rfl, rfl⟩, ⟨rfl, rfl, ?_⟩, ⟨rfl, rfl, rfl⟩,
    ⟨rfl, rfl, ?_⟩⟩
  · rw [verify_lazy_trace,
      List.getLast?_append_of_ne_nil _ (by simp [lazySuffixOps])]
    rfl
  · rw [verify_spinner_trace,
      List.getLast?_append_of_ne_nil _ (by simp)]
    rfl

/-- C4 counterexample: it is false that a script performs no further
browser-automation actions after catching a failure — verify_changes.py's
`except` block takes a screenshot. -/
theorem C4_counterexample :
    ¬ (∀ m ∈ allMains, ∀ e : String, (m (Except.error e)).opsAfterCatch = []) := by
  intro h
  have hm := h verify_changes_main (by simp [allMains]) "boom"
  simp [verify_changes_main] at hm

/-- C4 (amended): after a failure is caught at top level, eight of the nine
scripts perform no browser-automation action beyond closing the browser;
verify_changes.py additionally takes exactly one screenshot, to the fixed
path verification/error.png, and nothing else — no script retries. -/
theorem C4_amended : ∀ e : String,
    (verify_accordion_main (Except.error e)).opsAfterCatch = [] ∧
    (verify_accordion_v2_main (Except.error e)).opsAfterCatch = [] ∧
    (verify_accordion_v3_main (Except.error e)).opsAfterCatch = [] ∧
    (verify_app_main (Except.error e)).opsAfterCatch = [] ∧
    (verify_changes_main (Except.error e)).opsAfterCatch =
      [Op.screenshot "verification/error.png"] ∧
    (verify_lazy_main (Except.error e)).opsAfterCatch = [] ∧
    (verify_buttons_main (Except.error e)).opsAfterCatch = [] ∧
    (verify_lazy_loading_main (Except.error e)).opsAfterCatch = [] ∧
    (verify_spinner_main (Except.error e)).opsAfterCatch = [] :=
  fun _ => ⟨rfl, rfl, rfl, rfl, rfl, rfl, rfl, rfl, rfl⟩

/-- C5: every `page.goto` issued by any of the nine scripts, on any page,
targets http://localhost:5173 or http://localhost:3000. -/
theorem C5_goto_urls : ∀ pd : PageData, ∀ t ∈ allTraces pd, ∀ u : String,
    Op.goto u ∈ t →
      u = "http://localhost:5173" ∨ u = "http://localhost:3000" := by
  intro pd t ht u hu
  simp only [allTraces, List.mem_cons, List.not_mem_nil, or_false] at ht
  rcases ht with rfl | rfl | rfl | rfl | rfl | rfl | rfl | rfl | rfl
  · left; simp [verify_accordion_trace] at hu; exact hu
  · left; simp [verify_accordion_v2_trace] at hu; exact hu
  · left; simp [verify_accordion_v3_trace] at hu; exact hu
  · left; simp [verify_app_trace] at hu; exact hu
  · left; simp [verify_buttons_trace] at hu; exact hu
  · left; simp [verify_changes_trace] at hu; exact hu
  · left
    simp only [verify_lazy_trace, lazyPrefixOps, lazySuffixOps,
      List.mem_append, List.mem_cons] at hu
    rcases hu with (h | h) | h
    · rcases h with h | h | h | h | h | h | h | h <;> simp_all
    · rcases mem_lazyLoopOps _ _ _ h with ⟨s, a, h⟩ | ⟨m, h⟩ <;> simp_all
    · simp_all
  · right; simp [verify_lazy_loading_trace] at hu; exact hu
  · left
    cases hc : strContains pd.pageContent "Validating..." &&
        strContains pd.pageContent "animate-spin" <;>
      simp only [verify_spinner_trace, hc, if_true, if_false,
        Bool.false_eq_true, List.mem_append, List.mem_cons] at hu <;>
      simp_all

/-- C5 witness: the navigation of verify_app.py at a concrete page. -/
theorem C5_witness :
    "http://localhost:5173" = "http://localhost:5173" ∨
      "http://localhost:5173" = "http://localhost:3000" :=
  C5_goto_urls pd0 (verify_app_trace pd0) (by simp [allTraces])
    "http://localhost:5173" (by simp [verify_app_trace])

/-- C6: every script launches exactly one browser, creates at most one
explicit browser context and exactly one page (the trace, a linear list,
reflects the synchronous single-threaded API: operations are sequential). -/
theorem C6_single_browser : ∀ pd : PageData, ∀ t ∈ allTraces pd,
    countOp isLaunch t = 1 ∧ countOp isNewPage t = 1 ∧
      countOp isNewContext t ≤ 1 := by
  intro pd t ht
  simp only [allTraces, List.mem_cons, List.not_mem_nil, or_false] at ht
  rcases ht with rfl | rfl | rfl | rfl | rfl | rfl | rfl | rfl | rfl
  · exact ⟨rfl, rfl, Nat.zero_le 1⟩
  · exact ⟨rfl, rfl, Nat.zero_le 1⟩
  · exact ⟨rfl, rfl, Nat.zero_le 1⟩
  · exact ⟨rfl, rfl, Nat.zero_le 1⟩
  · exact ⟨rfl, rfl, Nat.zero_le 1⟩
  · exact ⟨rfl, rfl, Nat.zero_le 1⟩
  · refine ⟨?_, ?_, ?_⟩
    · simp only [verify_lazy_trace, countOp, List.filter_append,
        lazyLoopOps_filter isLaunch (fun _ _ => rfl) (fun _ => rfl)]
      rfl
    · simp only [verify_lazy_trace, countOp, List.filter_append,
        lazyLoopOps_filter isNewPage (fun _ _ => rfl) (fun _ => rfl)]
      rfl
    · simp only [verify_lazy_trace, countOp, List.filter_append,
        lazyLoopOps_filter isNewContext (fun _ _ => rfl) (fun _ => rfl)]
      exact Nat.zero_le 1
  · exact ⟨rfl, rfl, Nat.zero_le 1⟩
  · refine ⟨?_, ?_, ?_⟩ <;>
      cases hc : strContains pd.pageContent "Validating..." &&
        strContains pd.pageContent "animate-spin" <;>
      simp only [verify_spinner_trace, hc, if_true, if_false,
        Bool.false_eq_true, countOp, List.filter_append] <;>
      rfl

/-- C6 witness: the counts for verify_spinner.py at a concrete page. -/
theorem C6_witness :
    countOp isLaunch (verify_spinner_trace pd0) = 1 ∧
    countOp isNewPage (verify_spinner_trace pd0) = 1 ∧
    countOp isNewContext (verify_spinner_trace pd0) ≤ 1 :=
  C6_single_browser pd0 (verify_spinner_trace pd0) (by simp [allTraces])

/-- C7: every screenshot captured by any script — including the one taken
in verify_changes.py's failure handler — goes to a fixed string-literal
path, independent of the page and of the exception. -/
theorem C7_screenshot_paths : ∀ pd : PageData,
    screenshotPaths (verify_accordion_trace pd) =
      ["verification/accordion_expanded.png"] ∧
    screenshotPaths (verify_accordion_v2_trace pd) =
      ["verification/accordion_verified.png"] ∧
    screenshotPaths (verify_accordion_v3_trace pd) =
      ["verification/accordion_verified.png"] ∧
    screenshotPaths (verify_app_trace pd) = ["verification/app_start.png"] ∧
    screenshotPaths (verify_buttons_trace pd) =
      ["verification/mode_buttons_initial.png",
       "verification/mode_buttons_pro.png"] ∧
    screenshotPaths (verify_changes_trace pd) =
      ["verification/prompt_input_hint.png"] ∧
    screenshotPaths (verify_lazy_trace pd) =
      ["/home/jules/verification/verification.png"] ∧
    screenshotPaths (verify_lazy_loading_trace pd) =
      ["verification/app_loaded.png"] ∧
    screenshotPaths (verify_spinner_trace pd) =
      ["/home/jules/verification/spinner_verification.png"] ∧
    ∀ e : String,
      screenshotPaths (verify_changes_main (Except.error e)).opsAfterCatch =
        ["verification/error.png"] := by
  intro pd
  refine ⟨rfl, rfl, rfl, rfl, rfl, rfl, ?_, rfl, ?_, fun _ => rfl⟩
  · simp only [verify_lazy_trace, screenshotPaths, List.filterMap_append,
      lazyLoopOps_filterMap
        (fun o => match o with | Op.screenshot p => some p | _ => none)
        (fun _ _ => rfl) (fun _ => rfl)]
    rfl
  · cases hc : strContains pd.pageContent "Validating..." &&
      strContains pd.pageContent "animate-spin" <;>
    simp only [verify_spinner_trace, hc, if_true, if_false,
      Bool.false_eq_true, screenshotPaths, List.filterMap_append] <;>
    rfl

/-- C8: in the five scripts whose `__main__` wraps the verification call in
try/except Exception, no exception raised by the verification body escapes:
the run terminates normally after printing a message, and its exit status
equals that of a successful run. -/
theorem C8_no_propagation : ∀ e : String,
    ((verify_accordion_main (Except.error e)).raised = none ∧
      exitStatus (verify_accordion_main (Except.error e)) =
        exitStatus (verify_accordion_main (Except.ok ())) ∧
      (verify_accordion_main (Except.error e)).printed ≠ []) ∧
    ((verify_accordion_v2_main (Except.error e)).raised = none ∧
      exitStatus (verify_accordion_v2_main (Except.error e)) =
        exitStatus (verify_accordion_v2_main (Except.ok ())) ∧
      (verify_accordion_v2_main (Except.error e)).printed ≠ []) ∧
    ((verify_accordion_v3_main (Except.error e)).raised = none ∧
      exitStatus (verify_accordion_v3_main (Except.error e)) =
        exitStatus (verify_accordion_v3_main (Except.ok ())) ∧
      (verify_accordion_v3_main (Except.error e)).printed ≠ []) ∧
    ((verify_app_main (Except.error e)).raised = none ∧
      exitStatus (verify_app_main (Except.error e)) =
        exitStatus (verify_app_main (Except.ok ())) ∧
      (verify_app_main (Except.error e)).printed ≠ []) ∧
    ((verify_changes_main (Except.error e)).raised = none ∧
      exitStatus (verify_changes_main (Except.error e)) =
        exitStatus (verify_changes_main (Except.ok ())) ∧
      (verify_changes_main (Except.error e)).printed ≠ []) :=
  fun _ =>
    ⟨⟨rfl, rfl, List.cons_ne_nil _ _⟩, ⟨rfl, rfl, List.cons_ne_nil _ _⟩,
     ⟨rfl, rfl, List.cons_ne_nil _ _⟩, ⟨rfl, rfl, List.cons_ne_nil _ _⟩,
     ⟨rfl, rfl, List.cons_ne_nil _ _⟩⟩

/-- C9: the verify_lazy.py attribute loop raises AssertionError exactly when
some located history image has a loading attribute other than "lazy" or a
decoding attribute other than "async"; it completes normally exactly when
every history image (including the zero-image case) has both. -/
theorem C9_loop_characterization :
    ∀ imgs : List (Option String × Option String),
      ((∃ msg, checkHistoryImages imgs = Except.error msg) ↔
        ∃ img ∈ imgs, img.1 ≠ some "lazy" ∨ img.2 ≠ some "async") ∧
      (checkHistoryImages imgs = Except.ok () ↔
        ∀ img ∈ imgs, img.1 = some "lazy" ∧ img.2 = some "async") := by
  intro imgs
  constructor
  · rw [except_error_iff_ne_ok, checkHistoryImages,
      checkImagesFrom_ok_iff imgs 0]
    push_neg
    simp only [ne_eq]
    constructor
    · rintro ⟨img, hmem, himp⟩
      exact ⟨img, hmem, by tauto⟩
    · rintro ⟨img, hmem, hor⟩
      exact ⟨img, hmem, by tauto⟩
  · exact checkImagesFrom_ok_iff imgs 0

/-- C10: the verify_accordion_v3.py route handler fulfills every request
with status 200 and the same fixed body, and that body — `str(dict)` with
single quotes replaced by double quotes — is exactly the serialization of
the JSON value with one candidate whose content part text is
"Test response". -/
theorem C10_stub_response : ∀ req req' : RouteRequest,
    handle_gemini_api req = handle_gemini_api req' ∧
    (handle_gemini_api req).status = 200 ∧
    (handle_gemini_api req).body = jsonSerialize expectedJson ∧
    (handle_gemini_api req).body =
      "\x7b\"candidates\": [\x7b\"content\": \x7b\"parts\": [\x7b\"text\": \"Test response\"\x7d]\x7d\x7d]\x7d" := by
  intro req req'
  refine ⟨rfl, rfl, ?_, ?_⟩
  · simp only [handle_gemini_api, response_body, pyRepr, pyReprItems,
      pyReprElems, expectedJson, jsonSerialize, jsonSerializeItems,
      jsonSerializeElems]
    decide
  · simp only [handle_gemini_api, response_body, pyRepr, pyReprItems,
      pyReprElems]
    decide
